import Mathlib

/-!
# Verification of the document-admissibility pipeline

A shallow embedding, in Lean 4, of the verification pipeline of
`src/verificador_admisibilidad.py` (class `VerificadorAdmisibilidad`): the five
per-page text checks (blank pages, foliation, duplicate folios, legibility,
internal similarity) and the global-status aggregator, together with theorems
settling the specification's claims about them.

Modelling conventions:
* A loaded document is the ordered list of its pages' extraction outcomes,
  `List (Option String)`; `none` models a page whose `extract_text()` raised
  (each check catches that per page, in its own way).
* Python `float` arithmetic on these small ratios is modelled as exact
  rational arithmetic over `ℚ` (thresholds `0.1`, `0.05`, `0.6`, `0.85`
  become `1/10`, `1/20`, `3/5`, `17/20`).
* A `ZeroDivisionError` reaching the caller is modelled by `Except.error ()`;
  the checks that divide by the page count return `Except Unit Resultado`.
* `hashlib.md5(...).hexdigest()` is an external digest; the duplicate check is
  parameterised over the digest function `String → String`.
* `difflib.SequenceMatcher(None, a, b).ratio()` (CPython) is embedded in full,
  including the `autojunk` popularity heuristic and the match-extension loops;
  the junk-extension loops are omitted because `isjunk is None` makes the
  junk set empty, so they never fire.
* Unicode character classes (`str.isspace`, `str.isalnum`, regex `\s`, `\d`)
  are modelled on the character sets actually exercised by documents in this
  development: Python's whitespace set, ASCII alphanumerics and ASCII digits.
* Human-readable `detalles` message strings are not modelled; the result
  model keeps the machine-readable fields (estado, porcentaje_cumplimiento,
  folios_afectados).
-/

/-- Python whitespace (`str.isspace` / regex `\\s` on `str`), by code point:
tab, LF, VT, FF, CR, FS, GS, RS, US, space, NEL, NBSP, ogham space, the
en-quad..hair-space range, line/paragraph separator, NNBSP, MMSP, ideographic
space. -/
def pyIsSpace (c : Char) : Bool :=
  decide (c.toNat ∈ [0x09, 0x0a, 0x0b, 0x0c, 0x0d, 0x1c, 0x1d, 0x1e, 0x1f,
                     0x20, 0x85, 0xa0, 0x1680, 0x2028, 0x2029, 0x202f, 0x205f, 0x3000]) ||
  decide (0x2000 ≤ c.toNat ∧ c.toNat ≤ 0x200a)

/-- Python `str.strip()` on a character list. -/
def pyStripL (l : List Char) : List Char :=
  ((l.dropWhile pyIsSpace).reverse.dropWhile pyIsSpace).reverse

/-- Python `texto.strip()`. -/
def pyStrip (s : String) : String :=
  ⟨pyStripL s.data⟩

/-- Python `c.isalnum()` (ASCII fragment of the Unicode class). -/
def pyIsAlnum (c : Char) : Bool :=
  c.isAlpha || c.isDigit

/-- `ResultadoVerificacion`, without the `detalles` message strings. -/
structure Resultado where
  tipo : String
  estado : String
  cumplimiento : ℚ
  afectados : List Nat
  deriving Repr, DecidableEq

/-- `_determinar_estado_global`: counts of `RECHAZADO` / `OBSERVADO` results
decide the global status; any other estado (`APROBADO`, `NO PROCESADO`)
contributes to neither count. -/
def determinarEstadoGlobal (rs : List Resultado) : String :=
  let rechazados := rs.countP (fun r => r.estado = "RECHAZADO")
  let observados := rs.countP (fun r => r.estado = "OBSERVADO")
  if rechazados > 0 then "NO ADMISIBLE"
  else if observados > 0 then "ADMISIBLE CON OBSERVACIONES"
  else "ADMISIBLE"

/-! ## 1.1 Blank pages (`_verificar_hojas_blanco`) -/

/-- Page numbers whose extracted, stripped text has fewer than 10 characters.
A page whose extraction raised is skipped (the `except` branch only logs). -/
def hojasBlanco (ts : List (Option String)) : List Nat :=
  (ts.enum.filter fun p =>
    match p.2 with
    | some t => decide ((pyStrip t).length < 10)
    | none => false).map (fun p => p.1 + 1)

def blancoEstado (ts : List (Option String)) : String :=
  if (hojasBlanco ts).length = 0 then "APROBADO" else "OBSERVADO"

/-- The `ResultadoVerificacion` built at the end of `_verificar_hojas_blanco`;
the compliance division is the caller's job to guard (it is not guarded). -/
def blancoResultado (ts : List (Option String)) : Resultado :=
  { tipo := "1.1 Hojas en Blanco"
    estado := blancoEstado ts
    cumplimiento := ((ts.length : ℚ) - (hojasBlanco ts).length) / ts.length * 100
    afectados := hojasBlanco ts }

/-- `_verificar_hojas_blanco`: `error` models the `ZeroDivisionError` raised
by `(total - blancas) / total` when the document has zero pages. -/
def blancoResult (ts : List (Option String)) : Except Unit Resultado :=
  if ts.length = 0 then .error () else .ok (blancoResultado ts)

/-! ## 1.2 Foliation (`_verificar_foliacion`)

The declared folio number is extracted by `re.search` with the patterns
`folio\s*:?\s*(\d+)`, `foja\s*:?\s*(\d+)`, `página\s*:?\s*(\d+)` and
`^(\d+)$`, flags `IGNORECASE | MULTILINE`, first pattern with a match wins.
The labeled patterns are deterministic: after the label, greedy `\s*`, one
optional `:`, greedy `\s*`, then at least one digit (the group is the maximal
digit run, matching greedy `\d+`). -/

/-- `re.IGNORECASE` lowering for the letters occurring in the patterns
(ASCII plus the Latin-1 uppercase range, for `Á`/`á` of `página`). -/
def minusculaLatina (c : Char) : Char :=
  if ('A' ≤ c ∧ c ≤ 'Z') ∨ (0xC0 ≤ c.toNat ∧ c.toNat ≤ 0xDE ∧ c.toNat ≠ 0xD7) then
    Char.ofNat (c.toNat + 0x20)
  else c

/-- Whether the text starts with the label, compared case-insensitively. -/
def empiezaConCI : List Char → List Char → Bool
  | [], _ => true
  | _ :: _, [] => false
  | c :: cs, d :: ds => decide (minusculaLatina d = minusculaLatina c) && empiezaConCI cs ds

/-- `int(...)` on a run of ASCII digits. -/
def valorDigitos (ds : List Char) : Nat :=
  ds.foldl (fun n c => 10 * n + (c.toNat - 48)) 0

/-- Match `\s*:?\s*(\d+)` at the start of `l`, returning the captured group's
value. -/
def numeroTrasEtiqueta (l : List Char) : Option Nat :=
  let r1 := l.dropWhile pyIsSpace
  let r2 := match r1 with
    | ':' :: t => t.dropWhile pyIsSpace
    | _ => r1
  let ds := r2.takeWhile Char.isDigit
  if ds.isEmpty then none else some (valorDigitos ds)

/-- Leftmost match of `label\s*:?\s*(\d+)` (case-insensitive): scan positions
left to right; at each occurrence of the label, the deterministic suffix
parse either completes the match or the scan moves on. -/
def buscaEtiquetado (label : List Char) : List Char → Option Nat
  | [] => none
  | s@(_ :: tail) =>
    if empiezaConCI label s then
      match numeroTrasEtiqueta (s.drop label.length) with
      | some n => some n
      | none => buscaEtiquetado label tail
    else buscaEtiquetado label tail

/-- Leftmost match of `^(\d+)$` under `MULTILINE`: the first line (split on
`'\n'`) that is non-empty and all digits. -/
def buscaLineaNumerica (l : List Char) : Option Nat :=
  (l.splitOn '\n').findSome? fun line =>
    if !line.isEmpty && line.all Char.isDigit then some (valorDigitos line) else none

/-- The `folio_encontrado` of `_verificar_foliacion` for one page's text. -/
def folioEncontrado (texto : String) : Option Nat :=
  let l := texto.data
  (buscaEtiquetado "folio".data l).orElse fun _ =>
  (buscaEtiquetado "foja".data l).orElse fun _ =>
  (buscaEtiquetado "página".data l).orElse fun _ =>
  buscaLineaNumerica l

/-- Pages whose declared folio differs from their 1-based position (a missing
declared number counts as differing); extraction failures are skipped. -/
def foliosIncorrectos (ts : List (Option String)) : List Nat :=
  (ts.enum.filter fun p =>
    match p.2 with
    | some t => decide (folioEncontrado t ≠ some (p.1 + 1))
    | none => false).map (fun p => p.1 + 1)

def foliacionEstado (ts : List (Option String)) : String :=
  let n := (foliosIncorrectos ts).length
  if n = 0 then "APROBADO"
  else if (n : ℚ) ≤ (ts.length : ℚ) * (1 / 10) then "OBSERVADO"
  else "RECHAZADO"

def foliacionResultado (ts : List (Option String)) : Resultado :=
  { tipo := "1.2 Foliación Correlativa"
    estado := foliacionEstado ts
    cumplimiento := ((ts.length : ℚ) - (foliosIncorrectos ts).length) / ts.length * 100
    afectados := foliosIncorrectos ts }

/-- `_verificar_foliacion`; `error` models the unguarded `ZeroDivisionError`
of the compliance division on a zero-page document. -/
def foliacionResult (ts : List (Option String)) : Except Unit Resultado :=
  if ts.length = 0 then .error () else .ok (foliacionResultado ts)

/-! ## 1.2 Duplicate folios (`_verificar_folios_duplicados`)

`hashlib.md5(texto.encode()).hexdigest()` is an external digest; the check is
parameterised over it. The dict `hashes_folios` is modelled as an association
list mapping each digest seen so far to the first page that produced it. -/

def buscarHash (h : String) : List (String × Nat) → Option Nat
  | [] => none
  | (k, v) :: rest => if k = h then some v else buscarHash h rest

/-- The `duplicados` list: pairs `(folio_original, folio_duplicado)` in page
order. `i` is the 0-based index of the head of the remaining pages; pages
whose extraction raised are skipped. -/
def duplicadosDesde (hash : String → String) :
    List (Option String) → Nat → List (String × Nat) → List (Nat × Nat)
  | [], _, _ => []
  | none :: rest, i, vistos => duplicadosDesde hash rest (i + 1) vistos
  | some t :: rest, i, vistos =>
    match buscarHash (hash t) vistos with
    | some orig => (orig, i + 1) :: duplicadosDesde hash rest (i + 1) vistos
    | none => duplicadosDesde hash rest (i + 1) ((hash t, i + 1) :: vistos)

def duplicados (hash : String → String) (ts : List (Option String)) : List (Nat × Nat) :=
  duplicadosDesde hash ts 0 []

def duplicadosEstado (hash : String → String) (ts : List (Option String)) : String :=
  if (duplicados hash ts).length = 0 then "APROBADO" else "RECHAZADO"

def duplicadosResultado (hash : String → String) (ts : List (Option String)) : Resultado :=
  { tipo := "1.2 Folios Duplicados"
    estado := duplicadosEstado hash ts
    cumplimiento := ((ts.length : ℚ) - (duplicados hash ts).length) / ts.length * 100
    afectados := (duplicados hash ts).map (·.2) }

def duplicadosResult (hash : String → String) (ts : List (Option String)) :
    Except Unit Resultado :=
  if ts.length = 0 then .error () else .ok (duplicadosResultado hash ts)

/-! ## 1.3 Legibility (`_verificar_ilegibilidad`) -/

/-- Python `round(x)` (banker's rounding), on exact rationals. -/
def pyRedondeaMedioPar (x : ℚ) : ℤ :=
  let f := ⌊x⌋
  let r := x - (f : ℚ)
  if r < 1 / 2 then f else if 1 / 2 < r then f + 1 else if f % 2 = 0 then f else f + 1

/-- Python `round(x, 2)`. -/
def pyRound2 (x : ℚ) : ℚ :=
  (pyRedondeaMedioPar (x * 100) : ℚ) / 100

/-- `sum(c.isalnum() or c.isspace() for c in texto)`. -/
def caracteresValidos (l : List Char) : Nat :=
  (l.filter fun c => pyIsAlnum c || pyIsSpace c).length

/-- `porcentaje_legible` of a page's text (only evaluated on non-empty text). -/
def porcentajeLegible (t : String) : ℚ :=
  (caracteresValidos t.data : ℚ) / (t.length : ℚ)

/-- One entry of `folios_ilegibles`: the page number, the stored `porcentaje`
(`round(ratio*100, 2)`, or `0` when extraction raised), and whether the entry
carries the `'error'` note. -/
structure FolioIlegible where
  folio : Nat
  porcentaje : ℚ
  conNotaError : Bool
  deriving Repr, DecidableEq

/-- The loop body of `_verificar_ilegibilidad` for the page at 0-based index
`p.1`: a non-empty page is flagged when its legible ratio is strictly below
the threshold (default 0.60 = 3/5); a page whose extraction raised is
flagged with `porcentaje` 0 and the error note. -/
def filtroIlegible (p : Nat × Option String) : Option FolioIlegible :=
  match p.2 with
  | some t =>
    if 0 < t.length ∧ porcentajeLegible t < 3 / 5 then
      some ⟨p.1 + 1, pyRound2 (porcentajeLegible t * 100), false⟩
    else none
  | none => some ⟨p.1 + 1, 0, true⟩

/-- `folios_ilegibles`. -/
def foliosIlegibles (ts : List (Option String)) : List FolioIlegible :=
  ts.enum.filterMap filtroIlegible

def ilegibilidadEstado (ts : List (Option String)) : String :=
  let n := (foliosIlegibles ts).length
  if n = 0 then "APROBADO"
  else if (n : ℚ) ≤ (ts.length : ℚ) * (1 / 20) then "OBSERVADO"
  else "RECHAZADO"

def ilegibilidadResultado (ts : List (Option String)) : Resultado :=
  { tipo := "1.3 Ilegibilidad de Información"
    estado := ilegibilidadEstado ts
    cumplimiento := ((ts.length : ℚ) - (foliosIlegibles ts).length) / ts.length * 100
    afectados := (foliosIlegibles ts).map (·.folio) }

def ilegibilidadResult (ts : List (Option String)) : Except Unit Resultado :=
  if ts.length = 0 then .error () else .ok (ilegibilidadResultado ts)

/-! ## `difflib.SequenceMatcher` (CPython), for `_calcular_similitud`

`_calcular_similitud(texto1, texto2)` returns
`SequenceMatcher(None, texto1, texto2).ratio()`. `ratio()` is
`2 * M / T`, where `M` is the total size of the matching blocks found by
`get_matching_blocks` (greedy longest matching block, recursing on the
unmatched remainders) and `T` the sum of the lengths, with `1.0` when both
texts are empty. -/

/-- Character of `l` at `i` (the algorithms below only read in-range
positions). -/
def cAt (l : List Char) (i : Nat) : Char :=
  l.getD i ' '

/-- The positions of `c` in `b`, in increasing order: `b2j[c]` as first built
by `__chain_b`. -/
def posicionesDe (c : Char) (b : List Char) : List Nat :=
  (List.range b.length).filter fun j => decide (cAt b j = c)

/-- The `autojunk` heuristic of `__chain_b`: for `len(b) >= 200`, characters
occurring more than `len(b) // 100 + 1` times are dropped from `b2j`. -/
def esPopular (b : List Char) (c : Char) : Bool :=
  decide (200 ≤ b.length) && decide (b.length / 100 + 1 < b.count c)

/-- `b2j` after the autojunk step (`isjunk is None`, so no junk removal). -/
def b2j (b : List Char) (c : Char) : List Nat :=
  if esPopular b c then [] else posicionesDe c b

/-- The running best match of `find_longest_match`. -/
structure Mejor where
  besti : Nat
  bestj : Nat
  bestsize : Nat
  deriving Repr, DecidableEq

/-- The body of one inner iteration of `find_longest_match`'s dynamic
program, for row `i` and an in-window `j`: `newj2len[j] = j2len[j-1] + 1`
(read from the previous row `j2lenPrev`), and the best triple is replaced
whenever a strictly larger `k` appears. -/
def cuerpoFila (j2lenPrev : Nat → Nat) (i : Nat) :
    ((Nat → Nat) × Mejor) → Nat → ((Nat → Nat) × Mejor)
  | (g, m), j =>
    let k := (if j = 0 then 0 else j2lenPrev (j - 1)) + 1
    ((fun x => if x = j then k else g x),
      if m.bestsize < k then ⟨i + 1 - k, j + 1 - k, k⟩ else m)

/-- One row `i` of the `find_longest_match` dynamic program. -/
def flmFila (j2lenPrev : Nat → Nat) (i : Nat) (js : List Nat) (mejor : Mejor) :
    (Nat → Nat) × Mejor :=
  js.foldl (cuerpoFila j2lenPrev i) ((fun _ => 0), mejor)

/-- One outer iteration of `find_longest_match`: row `i` runs over the
in-window positions of `b2j[a[i]]`; the window filter on `j` models the
`continue`/`break` on `blo`/`bhi` (sound because each `b2j` list is
increasing). -/
def pasoFila (a : List Char) (bj : Char → List Nat) (blo bhi : Nat) :
    ((Nat → Nat) × Mejor) → Nat → ((Nat → Nat) × Mejor) := fun acc i =>
  flmFila acc.1 i ((bj (cAt a i)).filter fun j => decide (blo ≤ j) && decide (j < bhi)) acc.2

/-- The main loop of `find_longest_match` over rows `alo ≤ i < ahi`. -/
def flmBucle (a : List Char) (bj : Char → List Nat) (alo ahi blo bhi : Nat) :
    (Nat → Nat) × Mejor :=
  (List.range' alo (ahi - alo)).foldl (pasoFila a bj blo bhi) ((fun _ => 0), ⟨alo, blo, 0⟩)

/-- The leftward match-extension while-loop of `find_longest_match` (the
non-junk one; with `isjunk is None` the junk set is empty, so `isbjunk` is
always false and the junk loops never fire). The first argument is fuel,
set to `besti` at the call site, enough to reach the loop's fixed point. -/
def extiendeIzq (a b : List Char) (alo blo : Nat) :
    Nat → Nat → Nat → Nat → Mejor
  | 0, bi, bj2, bs => ⟨bi, bj2, bs⟩
  | n + 1, bi, bj2, bs =>
    if alo < bi ∧ blo < bj2 ∧ cAt a (bi - 1) = cAt b (bj2 - 1) then
      extiendeIzq a b alo blo n (bi - 1) (bj2 - 1) (bs + 1)
    else ⟨bi, bj2, bs⟩

/-- The rightward match-extension while-loop; fuel `ahi - (besti + bestsize)`
is enough to reach the fixed point. -/
def extiendeDer (a b : List Char) (ahi bhi : Nat) :
    Nat → Nat → Nat → Nat → Mejor
  | 0, bi, bj2, bs => ⟨bi, bj2, bs⟩
  | n + 1, bi, bj2, bs =>
    if bi + bs < ahi ∧ bj2 + bs < bhi ∧ cAt a (bi + bs) = cAt b (bj2 + bs) then
      extiendeDer a b ahi bhi n bi bj2 (bs + 1)
    else ⟨bi, bj2, bs⟩

/-- `find_longest_match(alo, ahi, blo, bhi)` with `isjunk is None`. -/
def encuentraMejor (a b : List Char) (bj : Char → List Nat)
    (alo ahi blo bhi : Nat) : Mejor :=
  let m := (flmBucle a bj alo ahi blo bhi).2
  let m2 := extiendeIzq a b alo blo m.besti m.besti m.bestj m.bestsize
  extiendeDer a b ahi bhi (ahi - (m2.besti + m2.bestsize)) m2.besti m2.bestj m2.bestsize

/-- Total size of the matching blocks of `get_matching_blocks` over the
window `[alo, ahi) × [blo, bhi)`: the longest match, plus recursion on the
two unmatched remainders (the queue order does not affect the sum). The
first argument is fuel; each recursive call shrinks a window, so
`len(a) + len(b) + 1` at the root is enough. -/
def totalCoincidencias (a b : List Char) (bj : Char → List Nat) :
    Nat → Nat → Nat → Nat → Nat → Nat
  | 0, _, _, _, _ => 0
  | fuel + 1, alo, ahi, blo, bhi =>
    let m := encuentraMejor a b bj alo ahi blo bhi
    if m.bestsize = 0 then 0
    else
      m.bestsize +
        (if alo < m.besti ∧ blo < m.bestj then
          totalCoincidencias a b bj fuel alo m.besti blo m.bestj
        else 0) +
        (if m.besti + m.bestsize < ahi ∧ m.bestj + m.bestsize < bhi then
          totalCoincidencias a b bj fuel (m.besti + m.bestsize) ahi
            (m.bestj + m.bestsize) bhi
        else 0)

/-- `_calcular_similitud`: `SequenceMatcher(None, texto1, texto2).ratio()`. -/
def calcularSimilitud (texto1 texto2 : String) : ℚ :=
  let a := texto1.data
  let b := texto2.data
  let m := totalCoincidencias a b (b2j b) (a.length + b.length + 1) 0 a.length 0 b.length
  if a.length + b.length = 0 then 1
  else 2 * (m : ℚ) / ((a.length : ℚ) + (b.length : ℚ))

/-! ## 1.3 Internal similarity (`_verificar_plagio`) -/

/-- `secciones_texto`: pages whose stripped text has more than 100
characters, with their page numbers (extraction failures are skipped). -/
def seccionesTexto (ts : List (Option String)) : List (Nat × String) :=
  ts.enum.filterMap fun p =>
    match p.2 with
    | some t => if 100 < (pyStrip t).length then some (p.1 + 1, pyStrip t) else none
    | none => none

/-- All ordered pairs `(i, j)` with `i` before `j`, in the double-loop
order of `_verificar_plagio`. -/
def paresDe {α : Type} : List α → List (α × α)
  | [] => []
  | x :: xs => (xs.map fun y => (x, y)) ++ paresDe xs

/-- The inner-loop body of `_verificar_plagio`: a pair of sections becomes a
case when their similarity reaches the threshold (default 0.85 = 17/20). -/
def casoDePar (pq : (Nat × String) × (Nat × String)) : Option (Nat × Nat) :=
  if (17 : ℚ) / 20 ≤ calcularSimilitud pq.1.2 pq.2.2 then some (pq.1.1, pq.2.1)
  else none

/-- `casos_plagio`, as `(folio_1, folio_2)` pairs. -/
def casosPlagio (ts : List (Option String)) : List (Nat × Nat) :=
  (paresDe (seccionesTexto ts)).filterMap casoDePar

def plagioEstado (ts : List (Option String)) : String :=
  if (casosPlagio ts).length = 0 then "APROBADO" else "OBSERVADO"

/-- `_verificar_plagio` builds its result without dividing by the page count
(the denominator is `max(len(secciones_texto), 1)`), so it is total.
`list(set(...))` for the affected pages is modelled as first-occurrence
deduplication. -/
def plagioResultado (ts : List (Option String)) : Resultado :=
  { tipo := "1.3 Verificación de Plagio"
    estado := plagioEstado ts
    cumplimiento :=
      100 - ((casosPlagio ts).length : ℚ) / (max (seccionesTexto ts).length 1 : ℚ) * 100
    afectados := (((casosPlagio ts).map (·.1)) ++ ((casosPlagio ts).map (·.2))).dedup }

/-! ## The pipeline (`ejecutar_verificacion_completa`)

The five text checks run in sequence with no exception handling around any
check body, so the first check body that raises aborts the remaining ones;
that is the `Except` bind. The optional spelling check is not modelled: its
whole body is wrapped in `try/except`, so it degrades to a `NO PROCESADO`
result by itself and can neither abort the run nor be aborted by design. -/

def ejecutarVerificaciones (hash : String → String) (ts : List (Option String)) :
    Except Unit (List Resultado) := do
  let r1 ← blancoResult ts
  let r2 ← foliacionResult ts
  let r3 ← duplicadosResult hash ts
  let r4 ← ilegibilidadResult ts
  let r5 := plagioResultado ts
  pure [r1, r2, r3, r4, r5]


/-- Diagonal run of the self-comparison dynamic program: the length of the
maximal suffix of `a[0..i]` whose characters all survive autojunk. -/
def carreraDiag (a : List Char) : Nat → Nat
  | 0 => if esPopular a (cAt a 0) then 0 else 1
  | i + 1 => if esPopular a (cAt a (i + 1)) then 0 else carreraDiag a i + 1

/-- Largest diagonal run among rows `0 ≤ r < i`. -/
def maxCarrera (a : List Char) : Nat → Nat
  | 0 => 0
  | i + 1 => max (maxCarrera a i) (carreraDiag a i)

/-- A 101-character single-letter text: long enough (after stripping) for the
similarity check's eligibility filter. -/
def textoLargo : String :=
  ⟨List.replicate 101 'x'⟩

/-! ## Characterisation lemmas -/

theorem mem_hojasBlanco {ts : List (Option String)} {i : Nat} :
    i + 1 ∈ hojasBlanco ts ↔ ∃ t, ts[i]? = some (some t) ∧ (pyStrip t).length < 10 := by
  unfold hojasBlanco
  rw [List.mem_map]
  constructor
  · rintro ⟨⟨j, o⟩, hp, hji⟩
    obtain ⟨hmem, hq⟩ := List.mem_filter.1 hp
    obtain rfl : j = i := by omega
    rw [List.mk_mem_enum_iff_getElem?] at hmem
    cases o with
    | none => simp at hq
    | some t => exact ⟨t, by simpa using hmem, by simpa using hq⟩
  · rintro ⟨t, hget, hP⟩
    refine ⟨(i, some t), List.mem_filter.2 ⟨?_, ?_⟩, rfl⟩
    · rw [List.mk_mem_enum_iff_getElem?]; exact hget
    · simpa using hP

theorem mem_foliosIncorrectos {ts : List (Option String)} {i : Nat} :
    i + 1 ∈ foliosIncorrectos ts ↔
      ∃ t, ts[i]? = some (some t) ∧ folioEncontrado t ≠ some (i + 1) := by
  unfold foliosIncorrectos
  rw [List.mem_map]
  constructor
  · rintro ⟨⟨j, o⟩, hp, hji⟩
    obtain ⟨hmem, hq⟩ := List.mem_filter.1 hp
    obtain rfl : j = i := by omega
    rw [List.mk_mem_enum_iff_getElem?] at hmem
    cases o with
    | none => simp at hq
    | some t => exact ⟨t, by simpa using hmem, by simpa using hq⟩
  · rintro ⟨t, hget, hP⟩
    refine ⟨(i, some t), List.mem_filter.2 ⟨?_, ?_⟩, rfl⟩
    · rw [List.mk_mem_enum_iff_getElem?]; exact hget
    · simpa using hP

theorem length_hojasBlanco_le (ts : List (Option String)) :
    (hojasBlanco ts).length ≤ ts.length := by
  unfold hojasBlanco
  rw [List.length_map]
  exact (List.length_filter_le _ _).trans (by rw [List.enum_length])

theorem length_foliosIncorrectos_le (ts : List (Option String)) :
    (foliosIncorrectos ts).length ≤ ts.length := by
  unfold foliosIncorrectos
  rw [List.length_map]
  exact (List.length_filter_le _ _).trans (by rw [List.enum_length])

theorem length_foliosIlegibles_le (ts : List (Option String)) :
    (foliosIlegibles ts).length ≤ ts.length := by
  unfold foliosIlegibles
  exact (List.length_filterMap_le _ _).trans (by rw [List.enum_length])

theorem length_duplicadosDesde_le (hash : String → String) :
    ∀ (rest : List (Option String)) (i : Nat) (vistos : List (String × Nat)),
      (duplicadosDesde hash rest i vistos).length ≤ rest.length := by
  intro rest
  induction rest with
  | nil => intro i vistos; simp [duplicadosDesde]
  | cons o r ih =>
    intro i vistos
    cases o with
    | none => simpa [duplicadosDesde] using (ih (i + 1) vistos).trans (by omega)
    | some t =>
      unfold duplicadosDesde
      cases buscarHash (hash t) vistos with
      | none => simpa using (ih (i + 1) _).trans (by omega)
      | some orig => simpa using ih (i + 1) vistos

theorem length_duplicados_le (hash : String → String) (ts : List (Option String)) :
    (duplicados hash ts).length ≤ ts.length :=
  length_duplicadosDesde_le hash ts 0 []

/-- A rational of the form `(n - m) / n * 100` with `m ≤ n`, `0 < n` lies in
`[0, 100]`. -/
theorem cumplimiento_en_cero_cien {n m : Nat} (hmn : m ≤ n) (hn : 0 < n) :
    0 ≤ ((n : ℚ) - m) / n * 100 ∧ ((n : ℚ) - m) / n * 100 ≤ 100 := by
  have hn' : (0 : ℚ) < n := by exact_mod_cast hn
  have hsub : (0 : ℚ) ≤ (n : ℚ) - m := by
    have : (m : ℚ) ≤ n := by exact_mod_cast hmn
    linarith
  constructor
  · positivity
  · have h1 : ((n : ℚ) - m) / n ≤ 1 := by
      rw [div_le_one hn']
      have : (0 : ℚ) ≤ (m : ℚ) := by positivity
      linarith
    nlinarith

/-! ## Claims -/

/-- C1: over any sequence of check results, the aggregated global status is
`NO ADMISIBLE` exactly when some check's estado is `RECHAZADO`; otherwise
`ADMISIBLE CON OBSERVACIONES` exactly when some check's estado is
`OBSERVADO`; otherwise `ADMISIBLE`. Any other estado — in particular the
spelling check's `NO PROCESADO` — is excluded from the decision, so an
all-approved run with one unprocessed check is `ADMISIBLE`. -/
theorem agregador_estado_global (rs : List Resultado) :
    (determinarEstadoGlobal rs = "NO ADMISIBLE" ↔ ∃ r ∈ rs, r.estado = "RECHAZADO") ∧
    (determinarEstadoGlobal rs = "ADMISIBLE CON OBSERVACIONES" ↔
      (∀ r ∈ rs, r.estado ≠ "RECHAZADO") ∧ ∃ r ∈ rs, r.estado = "OBSERVADO") ∧
    (determinarEstadoGlobal rs = "ADMISIBLE" ↔
      (∀ r ∈ rs, r.estado ≠ "RECHAZADO") ∧ (∀ r ∈ rs, r.estado ≠ "OBSERVADO")) ∧
    determinarEstadoGlobal
      [⟨"a", "APROBADO", 100, []⟩, ⟨"b", "APROBADO", 100, []⟩,
       ⟨"c", "APROBADO", 100, []⟩, ⟨"d", "APROBADO", 100, []⟩,
       ⟨"e", "APROBADO", 100, []⟩, ⟨"f", "NO PROCESADO", 0, []⟩] = "ADMISIBLE" := by
  have hR : 0 < rs.countP (fun r => decide (r.estado = "RECHAZADO")) ↔
      ∃ r ∈ rs, r.estado = "RECHAZADO" := by
    rw [List.countP_pos_iff]; simp
  have hO : 0 < rs.countP (fun r => decide (r.estado = "OBSERVADO")) ↔
      ∃ r ∈ rs, r.estado = "OBSERVADO" := by
    rw [List.countP_pos_iff]; simp
  have s1 : ("NO ADMISIBLE" : String) ≠ "ADMISIBLE CON OBSERVACIONES" := by decide
  have s2 : ("NO ADMISIBLE" : String) ≠ "ADMISIBLE" := by decide
  have s3 : ("ADMISIBLE CON OBSERVACIONES" : String) ≠ "NO ADMISIBLE" := by decide
  have s4 : ("ADMISIBLE CON OBSERVACIONES" : String) ≠ "ADMISIBLE" := by decide
  have s5 : ("ADMISIBLE" : String) ≠ "NO ADMISIBLE" := by decide
  have s6 : ("ADMISIBLE" : String) ≠ "ADMISIBLE CON OBSERVACIONES" := by decide
  by_cases h1 : 0 < rs.countP (fun r => decide (r.estado = "RECHAZADO"))
  · have hg : determinarEstadoGlobal rs = "NO ADMISIBLE" := by
      simp [determinarEstadoGlobal, h1]
    have hex := hR.1 h1
    refine ⟨⟨fun _ => hex, fun _ => hg⟩, ?_, ?_, by decide⟩
    · constructor
      · intro hEq; exact absurd (hg.symm.trans hEq) s1
      · rintro ⟨hall, -⟩
        obtain ⟨r, hm, hre⟩ := hex
        exact absurd hre (hall r hm)
    · constructor
      · intro hEq; exact absurd (hg.symm.trans hEq) s2
      · rintro ⟨hall, -⟩
        obtain ⟨r, hm, hre⟩ := hex
        exact absurd hre (hall r hm)
  · have hnR : ∀ r ∈ rs, r.estado ≠ "RECHAZADO" := by
      intro r hm hre; exact h1 (hR.2 ⟨r, hm, hre⟩)
    by_cases h2 : 0 < rs.countP (fun r => decide (r.estado = "OBSERVADO"))
    · have hg : determinarEstadoGlobal rs = "ADMISIBLE CON OBSERVACIONES" := by
        simp [determinarEstadoGlobal, h1, h2]
      have hexO := hO.1 h2
      refine ⟨?_, ⟨fun _ => ⟨hnR, hexO⟩, fun _ => hg⟩, ?_, by decide⟩
      · constructor
        · intro hEq; exact absurd (hg.symm.trans hEq) s3
        · rintro ⟨r, hm, hre⟩
          exact absurd hre (hnR r hm)
      · constructor
        · intro hEq; exact absurd (hg.symm.trans hEq) s4
        · rintro ⟨-, hallO⟩
          obtain ⟨r, hm, hro⟩ := hexO
          exact absurd hro (hallO r hm)
    · have hnO : ∀ r ∈ rs, r.estado ≠ "OBSERVADO" := by
        intro r hm hro; exact h2 (hO.2 ⟨r, hm, hro⟩)
      have hg : determinarEstadoGlobal rs = "ADMISIBLE" := by
        simp [determinarEstadoGlobal, h1, h2]
      refine ⟨?_, ?_, ⟨fun _ => ⟨hnR, hnO⟩, fun _ => hg⟩, by decide⟩
      · constructor
        · intro hEq; exact absurd (hg.symm.trans hEq) s5
        · rintro ⟨r, hm, hre⟩
          exact absurd hre (hnR r hm)
      · constructor
        · intro hEq; exact absurd (hg.symm.trans hEq) s6
        · rintro ⟨-, ⟨r, hm, hro⟩⟩
          exact absurd hro (hnO r hm)

/-- C10: the four checks whose compliance division `(total - flagged) / total`
has no zero guard raise (model: return `error`) exactly on a zero-page
document, and return their result on any document with at least one page;
the similarity check is excluded (its denominator is `max(·, 1)`). -/
theorem division_por_cero_documento_vacio (hash : String → String)
    (ts : List (Option String)) (h : ts ≠ []) :
    blancoResult [] = .error () ∧ foliacionResult [] = .error () ∧
    duplicadosResult hash [] = .error () ∧ ilegibilidadResult [] = .error () ∧
    blancoResult ts = .ok (blancoResultado ts) ∧
    foliacionResult ts = .ok (foliacionResultado ts) ∧
    duplicadosResult hash ts = .ok (duplicadosResultado hash ts) ∧
    ilegibilidadResult ts = .ok (ilegibilidadResultado ts) := by
  have hl : ts.length ≠ 0 := by simpa using h
  refine ⟨rfl, rfl, rfl, rfl, ?_, ?_, ?_, ?_⟩ <;>
    simp [blancoResult, foliacionResult, duplicadosResult, ilegibilidadResult, hl]

theorem division_por_cero_documento_vacio_testigo :
    blancoResult [] = .error () ∧ foliacionResult [] = .error () ∧
    duplicadosResult (fun s => s) [] = .error () ∧ ilegibilidadResult [] = .error () ∧
    blancoResult [some "x"] = .ok (blancoResultado [some "x"]) ∧
    foliacionResult [some "x"] = .ok (foliacionResultado [some "x"]) ∧
    duplicadosResult (fun s => s) [some "x"] = .ok (duplicadosResultado (fun s => s) [some "x"]) ∧
    ilegibilidadResult [some "x"] = .ok (ilegibilidadResultado [some "x"]) :=
  division_por_cero_documento_vacio (fun s => s) [some "x"] (by decide)

/-- C7: the blank-page check counts an extracted page as blank exactly when
its stripped text has fewer than 10 characters, its estado is `APROBADO`
with no blank pages and `OBSERVADO` otherwise (never `RECHAZADO`), its
compliance is `(total - blancas) / total * 100`, and its affected pages are
exactly the blank pages. -/
theorem hojas_blanco_correcto (ts : List (Option String)) (h : ts ≠ []) :
    (∀ i : Nat, i + 1 ∈ (blancoResultado ts).afectados ↔
      ∃ t, ts[i]? = some (some t) ∧ (pyStrip t).length < 10) ∧
    ((hojasBlanco ts).length = 0 → (blancoResultado ts).estado = "APROBADO") ∧
    ((hojasBlanco ts).length ≠ 0 → (blancoResultado ts).estado = "OBSERVADO") ∧
    (blancoResultado ts).estado ≠ "RECHAZADO" ∧
    blancoResult ts = .ok (blancoResultado ts) ∧
    (blancoResultado ts).cumplimiento =
      ((ts.length : ℚ) - (hojasBlanco ts).length) / ts.length * 100 ∧
    (blancoResultado ts).afectados = hojasBlanco ts := by
  have hl : ts.length ≠ 0 := by simpa using h
  refine ⟨fun i => mem_hojasBlanco, ?_, ?_, ?_, ?_, rfl, rfl⟩
  · intro h0; simp [blancoResultado, blancoEstado, h0]
  · intro h0; simp [blancoResultado, blancoEstado, h0]
  · simp only [blancoResultado, blancoEstado]
    split_ifs <;> decide
  · simp [blancoResult, hl]

theorem hojas_blanco_correcto_testigo :
    (∀ i : Nat, i + 1 ∈ (blancoResultado [some "texto suficientemente largo", some "corto"]).afectados ↔
      ∃ t, [some "texto suficientemente largo", some "corto"][i]? = some (some t) ∧
        (pyStrip t).length < 10) ∧
    ((hojasBlanco [some "texto suficientemente largo", some "corto"]).length = 0 →
      (blancoResultado [some "texto suficientemente largo", some "corto"]).estado = "APROBADO") ∧
    ((hojasBlanco [some "texto suficientemente largo", some "corto"]).length ≠ 0 →
      (blancoResultado [some "texto suficientemente largo", some "corto"]).estado = "OBSERVADO") ∧
    (blancoResultado [some "texto suficientemente largo", some "corto"]).estado ≠ "RECHAZADO" ∧
    blancoResult [some "texto suficientemente largo", some "corto"] =
      .ok (blancoResultado [some "texto suficientemente largo", some "corto"]) ∧
    (blancoResultado [some "texto suficientemente largo", some "corto"]).cumplimiento =
      (((2 : Nat) : ℚ) -
        (hojasBlanco [some "texto suficientemente largo", some "corto"]).length) / (2 : Nat) * 100 ∧
    (blancoResultado [some "texto suficientemente largo", some "corto"]).afectados =
      hojasBlanco [some "texto suficientemente largo", some "corto"] :=
  hojas_blanco_correcto [some "texto suficientemente largo", some "corto"] (by decide)

theorem mem_afectados_ilegibilidad {ts : List (Option String)} {i : Nat} :
    i + 1 ∈ (ilegibilidadResultado ts).afectados ↔
      ts[i]? = some none ∨
        ∃ t, ts[i]? = some (some t) ∧ 0 < t.length ∧ porcentajeLegible t < 3 / 5 := by
  show i + 1 ∈ (foliosIlegibles ts).map (·.folio) ↔ _
  rw [List.mem_map]
  constructor
  · rintro ⟨e, he, hfol⟩
    obtain ⟨⟨j, o⟩, hmem, hf⟩ := List.mem_filterMap.1 he
    rw [List.mk_mem_enum_iff_getElem?] at hmem
    cases o with
    | none =>
      obtain rfl : e = ⟨j + 1, 0, true⟩ := by simpa [filtroIlegible] using hf.symm
      obtain rfl : j = i := by simp only at hfol; omega
      exact Or.inl hmem
    | some t =>
      simp only [filtroIlegible] at hf
      split_ifs at hf with hcond
      · obtain rfl : e = ⟨j + 1, pyRound2 (porcentajeLegible t * 100), false⟩ := by
          simpa using hf.symm
        obtain rfl : j = i := by simp only at hfol; omega
        exact Or.inr ⟨t, hmem, hcond⟩
  · rintro (hnone | ⟨t, hget, hcond⟩)
    · exact ⟨⟨i + 1, 0, true⟩,
        List.mem_filterMap.2 ⟨(i, none), List.mk_mem_enum_iff_getElem?.2 hnone, rfl⟩, rfl⟩
    · refine ⟨⟨i + 1, pyRound2 (porcentajeLegible t * 100), false⟩,
        List.mem_filterMap.2 ⟨(i, some t), List.mk_mem_enum_iff_getElem?.2 hget, ?_⟩, rfl⟩
      simp only [filtroIlegible]
      rw [if_pos hcond]

theorem pagina_fallida_en_ilegibles {ts : List (Option String)} {i : Nat}
    (h : ts[i]? = some none) :
    (⟨i + 1, 0, true⟩ : FolioIlegible) ∈ foliosIlegibles ts :=
  List.mem_filterMap.2 ⟨(i, none), List.mk_mem_enum_iff_getElem?.2 h, rfl⟩

theorem porcentajeLegible_hello : porcentajeLegible "hello" = 1 := by
  have h1 : caracteresValidos "hello".data = 5 := by decide
  have h2 : ("hello" : String).length = 5 := by decide
  rw [porcentajeLegible, h1, h2]
  norm_num

theorem porcentajeLegible_escenario : porcentajeLegible "ab!!!" = 2 / 5 := by
  have h1 : caracteresValidos "ab!!!".data = 2 := by decide
  have h2 : ("ab!!!" : String).length = 5 := by decide
  rw [porcentajeLegible, h1, h2]
  norm_num

theorem filtroIlegible_hello (n : Nat) : filtroIlegible (n, some "hello") = none := by
  have h2 : ("hello" : String).length = 5 := by decide
  simp only [filtroIlegible, porcentajeLegible_hello, h2]
  norm_num

theorem ilegibles_replicate_hello (k : Nat) :
    ∀ n : Nat, (List.enumFrom n (List.replicate k (some "hello"))).filterMap filtroIlegible = [] := by
  induction k with
  | zero => intro n; rfl
  | succ m ih =>
    intro n
    rw [List.replicate_succ, List.enumFrom_cons, List.filterMap_cons_none (filtroIlegible_hello n)]
    exact ih (n + 1)

theorem pyRound2_cuarenta : pyRound2 40 = 40 := by
  have h : ((40 : ℚ) * 100) = ((4000 : ℤ) : ℚ) := by norm_num
  rw [pyRound2, pyRedondeaMedioPar, h, Int.floor_intCast]
  norm_num

theorem escenario_foliosIlegibles :
    foliosIlegibles (List.replicate 99 (some "hello") ++ [some "ab!!!"]) =
      [⟨100, 40, false⟩] := by
  have habPos : (0 : Nat) < ("ab!!!" : String).length := by decide
  have hab : filtroIlegible (99, some "ab!!!") = some ⟨100, 40, false⟩ := by
    simp only [filtroIlegible, porcentajeLegible_escenario]
    rw [if_pos ⟨habPos, by norm_num⟩]
    have : ((2 : ℚ) / 5) * 100 = 40 := by norm_num
    rw [this, pyRound2_cuarenta]
  have henum : List.enum (α := Option String) = List.enumFrom 0 := rfl
  rw [foliosIlegibles, henum, List.enumFrom_append, List.filterMap_append,
    ilegibles_replicate_hello]
  simp [List.enumFrom_cons, hab]

/-- C8: the legibility check flags an extracted non-empty page exactly when
its alphanumeric-or-whitespace ratio is strictly below the 0.60 threshold;
a page whose extraction raised is flagged with stored percentage 0 and the
error note; estado is `APROBADO` with nothing flagged, `OBSERVADO` when the
flagged count is at most 5% of the pages, `RECHAZADO` otherwise. The claim's
scenario: a page 40% alphanumeric/whitespace is flagged, and with one such
page among 100 the check's estado is `OBSERVADO`. -/
theorem ilegibilidad_correcta (ts : List (Option String)) (h : ts ≠ []) :
    (∀ i : Nat, ∀ t : String, ts[i]? = some (some t) →
      (i + 1 ∈ (ilegibilidadResultado ts).afectados ↔
        0 < t.length ∧ porcentajeLegible t < 3 / 5)) ∧
    (∀ i : Nat, ts[i]? = some none →
      (⟨i + 1, 0, true⟩ : FolioIlegible) ∈ foliosIlegibles ts ∧
        i + 1 ∈ (ilegibilidadResultado ts).afectados) ∧
    ((foliosIlegibles ts).length = 0 → (ilegibilidadResultado ts).estado = "APROBADO") ∧
    ((foliosIlegibles ts).length ≠ 0 →
      ((foliosIlegibles ts).length : ℚ) ≤ (ts.length : ℚ) * (1 / 20) →
      (ilegibilidadResultado ts).estado = "OBSERVADO") ∧
    (((ts.length : ℚ) * (1 / 20) < ((foliosIlegibles ts).length : ℚ)) →
      (ilegibilidadResultado ts).estado = "RECHAZADO") ∧
    ilegibilidadResult ts = .ok (ilegibilidadResultado ts) ∧
    porcentajeLegible "ab!!!" = 2 / 5 ∧ ((2 : ℚ) / 5 < 3 / 5) ∧
    (ilegibilidadResultado (List.replicate 99 (some "hello") ++ [some "ab!!!"])).afectados =
      [100] ∧
    (ilegibilidadResultado (List.replicate 99 (some "hello") ++ [some "ab!!!"])).estado =
      "OBSERVADO" := by
  have hl : ts.length ≠ 0 := by simpa using h
  refine ⟨?_, ?_, ?_, ?_, ?_, ?_, porcentajeLegible_escenario, by norm_num, ?_, ?_⟩
  · intro i t hget
    rw [mem_afectados_ilegibilidad]
    constructor
    · rintro (hnone | ⟨u, hget2, hcond⟩)
      · rw [hget] at hnone; simp at hnone
      · rw [hget] at hget2
        obtain rfl : t = u := by simpa using hget2
        exact hcond
    · intro hcond; exact Or.inr ⟨t, hget, hcond⟩
  · intro i hget
    refine ⟨pagina_fallida_en_ilegibles hget, ?_⟩
    rw [mem_afectados_ilegibilidad]
    exact Or.inl hget
  · intro h0; simp [ilegibilidadResultado, ilegibilidadEstado, h0]
  · intro h0 hle
    simp only [ilegibilidadResultado, ilegibilidadEstado]
    rw [if_neg h0, if_pos hle]
  · intro hgt
    simp only [ilegibilidadResultado, ilegibilidadEstado]
    have h0 : (foliosIlegibles ts).length ≠ 0 := by
      intro hz
      rw [hz] at hgt
      simp only [Nat.cast_zero] at hgt
      have : (0 : ℚ) ≤ (ts.length : ℚ) * (1 / 20) := by positivity
      linarith
    rw [if_neg h0, if_neg (by linarith)]
  · simp [ilegibilidadResult, hl]
  · show (foliosIlegibles _).map (·.folio) = [100]
    rw [escenario_foliosIlegibles]
    rfl
  · show ilegibilidadEstado _ = "OBSERVADO"
    rw [ilegibilidadEstado]
    simp only [escenario_foliosIlegibles]
    have hlen : (List.replicate 99 (some ("hello" : String)) ++ [some "ab!!!"]).length = 100 := by
      simp
    rw [hlen]
    norm_num

theorem ilegibilidad_correcta_testigo :
    (∀ i : Nat, ∀ t : String, [some "ab!!!"][i]? = some (some t) →
      (i + 1 ∈ (ilegibilidadResultado [some "ab!!!"]).afectados ↔
        0 < t.length ∧ porcentajeLegible t < 3 / 5)) ∧
    (∀ i : Nat, [some "ab!!!"][i]? = some none →
      (⟨i + 1, 0, true⟩ : FolioIlegible) ∈ foliosIlegibles [some "ab!!!"] ∧
        i + 1 ∈ (ilegibilidadResultado [some "ab!!!"]).afectados) ∧
    ((foliosIlegibles [some "ab!!!"]).length = 0 →
      (ilegibilidadResultado [some "ab!!!"]).estado = "APROBADO") ∧
    ((foliosIlegibles [some "ab!!!"]).length ≠ 0 →
      ((foliosIlegibles [some "ab!!!"]).length : ℚ) ≤ ([some "ab!!!"].length : ℚ) * (1 / 20) →
      (ilegibilidadResultado [some "ab!!!"]).estado = "OBSERVADO") ∧
    ((([some "ab!!!"].length : ℚ) * (1 / 20) < ((foliosIlegibles [some "ab!!!"]).length : ℚ)) →
      (ilegibilidadResultado [some "ab!!!"]).estado = "RECHAZADO") ∧
    ilegibilidadResult [some "ab!!!"] = .ok (ilegibilidadResultado [some "ab!!!"]) ∧
    porcentajeLegible "ab!!!" = 2 / 5 ∧ ((2 : ℚ) / 5 < 3 / 5) ∧
    (ilegibilidadResultado (List.replicate 99 (some "hello") ++ [some "ab!!!"])).afectados =
      [100] ∧
    (ilegibilidadResultado (List.replicate 99 (some "hello") ++ [some "ab!!!"])).estado =
      "OBSERVADO" :=
  ilegibilidad_correcta [some "ab!!!"] (by decide)

/-- C6: the pagination check marks an extracted page incorrect exactly when
the declared number found by the ordered patterns (labeled `folio`/`foja`/
`página` first, then a bare all-digits line) is absent or differs from the
page's 1-based position; estado is `APROBADO` with no incorrect page,
`OBSERVADO` when the incorrect count is at most 10% of the pages,
`RECHAZADO` otherwise. The claim's scenario: pages "Folio: 1" and
"Folio: 3" flag page 2 (declared 3, expected 2) and the estado is
`RECHAZADO`. -/
theorem foliacion_correcta (ts : List (Option String)) (h : ts ≠ []) :
    (∀ i : Nat, i + 1 ∈ (foliacionResultado ts).afectados ↔
      ∃ t, ts[i]? = some (some t) ∧ folioEncontrado t ≠ some (i + 1)) ∧
    ((foliosIncorrectos ts).length = 0 → (foliacionResultado ts).estado = "APROBADO") ∧
    ((foliosIncorrectos ts).length ≠ 0 →
      ((foliosIncorrectos ts).length : ℚ) ≤ (ts.length : ℚ) * (1 / 10) →
      (foliacionResultado ts).estado = "OBSERVADO") ∧
    (((ts.length : ℚ) * (1 / 10) < ((foliosIncorrectos ts).length : ℚ)) →
      (foliacionResultado ts).estado = "RECHAZADO") ∧
    foliacionResult ts = .ok (foliacionResultado ts) ∧
    folioEncontrado "Folio: 1" = some 1 ∧
    folioEncontrado "Folio: 3" = some 3 ∧
    foliosIncorrectos [some "Folio: 1", some "Folio: 3"] = [2] ∧
    (foliacionResultado [some "Folio: 1", some "Folio: 3"]).estado = "RECHAZADO" := by
  have hl : ts.length ≠ 0 := by simpa using h
  refine ⟨fun i => mem_foliosIncorrectos, ?_, ?_, ?_, ?_, by decide, by decide, by decide, ?_⟩
  · intro h0; simp [foliacionResultado, foliacionEstado, h0]
  · intro h0 hle
    simp only [foliacionResultado, foliacionEstado]
    rw [if_neg h0, if_pos hle]
  · intro hgt
    simp only [foliacionResultado, foliacionEstado]
    have h0 : (foliosIncorrectos ts).length ≠ 0 := by
      intro hz
      rw [hz] at hgt
      simp only [Nat.cast_zero] at hgt
      have : (0 : ℚ) ≤ (ts.length : ℚ) * (1 / 10) := by positivity
      linarith
    rw [if_neg h0, if_neg (by linarith)]
  · simp [foliacionResult, hl]
  · show foliacionEstado [some "Folio: 1", some "Folio: 3"] = "RECHAZADO"
    rw [foliacionEstado]
    have h1 : foliosIncorrectos [some "Folio: 1", some "Folio: 3"] = [2] := by decide
    have h2 : ([some ("Folio: 1" : String), some "Folio: 3"]).length = 2 := by decide
    rw [h1, h2]
    norm_num

theorem foliacion_correcta_testigo :
    (∀ i : Nat, i + 1 ∈ (foliacionResultado [some "Folio: 1", some "Folio: 3"]).afectados ↔
      ∃ t, [some "Folio: 1", some "Folio: 3"][i]? = some (some t) ∧
        folioEncontrado t ≠ some (i + 1)) ∧
    ((foliosIncorrectos [some "Folio: 1", some "Folio: 3"]).length = 0 →
      (foliacionResultado [some "Folio: 1", some "Folio: 3"]).estado = "APROBADO") ∧
    ((foliosIncorrectos [some "Folio: 1", some "Folio: 3"]).length ≠ 0 →
      ((foliosIncorrectos [some "Folio: 1", some "Folio: 3"]).length : ℚ) ≤
        (([some "Folio: 1", some "Folio: 3"] : List (Option String)).length : ℚ) * (1 / 10) →
      (foliacionResultado [some "Folio: 1", some "Folio: 3"]).estado = "OBSERVADO") ∧
    ((([some "Folio: 1", some "Folio: 3"] : List (Option String)).length : ℚ) * (1 / 10) <
        ((foliosIncorrectos [some "Folio: 1", some "Folio: 3"]).length : ℚ) →
      (foliacionResultado [some "Folio: 1", some "Folio: 3"]).estado = "RECHAZADO") ∧
    foliacionResult [some "Folio: 1", some "Folio: 3"] =
      .ok (foliacionResultado [some "Folio: 1", some "Folio: 3"]) ∧
    folioEncontrado "Folio: 1" = some 1 ∧
    folioEncontrado "Folio: 3" = some 3 ∧
    foliosIncorrectos [some "Folio: 1", some "Folio: 3"] = [2] ∧
    (foliacionResultado [some "Folio: 1", some "Folio: 3"]).estado = "RECHAZADO" :=
  foliacion_correcta [some "Folio: 1", some "Folio: 3"] (by decide)

/-! ## Duplicate-check characterisation -/

theorem isSome_buscarHash_cons {h k : String} {v : Nat} {rest : List (String × Nat)} :
    (buscarHash h ((k, v) :: rest)).isSome = true ↔
      k = h ∨ (buscarHash h rest).isSome = true := by
  rw [show buscarHash h ((k, v) :: rest) =
        if k = h then some v else buscarHash h rest from rfl]
  split_ifs with hkh
  · simp [hkh]
  · simp [hkh]

theorem mem_duplicadosDesde (hash : String → String) :
    ∀ (rest : List (Option String)) (i : Nat) (vistos : List (String × Nat)) (q : Nat),
      q ∈ (duplicadosDesde hash rest i vistos).map (·.2) ↔
        ∃ d t, rest[d]? = some (some t) ∧ q = i + d + 1 ∧
          ((buscarHash (hash t) vistos).isSome = true ∨
            ∃ e, e < d ∧ ∃ u, rest[e]? = some (some u) ∧ hash u = hash t) := by
  intro rest
  induction rest with
  | nil =>
    intro i vistos q
    simp [duplicadosDesde]
  | cons o r ih =>
    intro i vistos q
    cases o with
    | none =>
      rw [show duplicadosDesde hash (none :: r) i vistos =
            duplicadosDesde hash r (i + 1) vistos from rfl, ih]
      constructor
      · rintro ⟨d, t, hget, hq, hc⟩
        refine ⟨d + 1, t, by simpa using hget, by omega, ?_⟩
        rcases hc with hv | ⟨e, he, u, hgu, hu⟩
        · exact Or.inl hv
        · exact Or.inr ⟨e + 1, by omega, u, by simpa using hgu, hu⟩
      · rintro ⟨d, t, hget, hq, hc⟩
        cases d with
        | zero => simp at hget
        | succ d' =>
          refine ⟨d', t, by simpa using hget, by omega, ?_⟩
          rcases hc with hv | ⟨e, he, u, hgu, hu⟩
          · exact Or.inl hv
          · cases e with
            | zero => simp at hgu
            | succ e' => exact Or.inr ⟨e', by omega, u, by simpa using hgu, hu⟩
    | some t0 =>
      rcases hb : buscarHash (hash t0) vistos with _ | orig
      · rw [show duplicadosDesde hash (some t0 :: r) i vistos =
              duplicadosDesde hash r (i + 1) ((hash t0, i + 1) :: vistos) from by
            rw [duplicadosDesde, hb], ih]
        constructor
        · rintro ⟨d, t, hget, hq, hc⟩
          refine ⟨d + 1, t, by simpa using hget, by omega, ?_⟩
          rcases hc with hv | ⟨e, he, u, hgu, hu⟩
          · rcases isSome_buscarHash_cons.1 hv with heq | hv2
            · exact Or.inr ⟨0, by omega, t0, by simp, by rw [heq]⟩
            · exact Or.inl hv2
          · exact Or.inr ⟨e + 1, by omega, u, by simpa using hgu, hu⟩
        · rintro ⟨d, t, hget, hq, hc⟩
          cases d with
          | zero =>
            obtain rfl : t0 = t := by simpa using hget
            rcases hc with hv | ⟨e, he, -⟩
            · rw [hb] at hv; simp at hv
            · omega
          | succ d' =>
            refine ⟨d', t, by simpa using hget, by omega, ?_⟩
            rcases hc with hv | ⟨e, he, u, hgu, hu⟩
            · exact Or.inl (isSome_buscarHash_cons.2 (Or.inr hv))
            · cases e with
              | zero =>
                obtain rfl : t0 = u := by simpa using hgu
                exact Or.inl (isSome_buscarHash_cons.2 (Or.inl hu))
              | succ e' => exact Or.inr ⟨e', by omega, u, by simpa using hgu, hu⟩
      · rw [show duplicadosDesde hash (some t0 :: r) i vistos =
              (orig, i + 1) :: duplicadosDesde hash r (i + 1) vistos from by
            rw [duplicadosDesde, hb]]
        rw [List.map_cons, List.mem_cons, ih]
        constructor
        · rintro (rfl | ⟨d, t, hget, hq, hc⟩)
          · exact ⟨0, t0, by simp, by omega, Or.inl (by rw [hb]; rfl)⟩
          · refine ⟨d + 1, t, by simpa using hget, by omega, ?_⟩
            rcases hc with hv | ⟨e, he, u, hgu, hu⟩
            · exact Or.inl hv
            · exact Or.inr ⟨e + 1, by omega, u, by simpa using hgu, hu⟩
        · rintro ⟨d, t, hget, hq, hc⟩
          cases d with
          | zero => exact Or.inl (by omega)
          | succ d' =>
            refine Or.inr ⟨d', t, by simpa using hget, by omega, ?_⟩
            rcases hc with hv | ⟨e, he, u, hgu, hu⟩
            · exact Or.inl hv
            · cases e with
              | zero =>
                obtain rfl : t0 = u := by simpa using hgu
                refine Or.inl ?_
                rw [← hu, hb]
                rfl
              | succ e' => exact Or.inr ⟨e', by omega, u, by simpa using hgu, hu⟩

theorem mem_afectados_duplicados (hash : String → String) (ts : List (Option String))
    (j : Nat) :
    j + 1 ∈ (duplicadosResultado hash ts).afectados ↔
      ∃ t, ts[j]? = some (some t) ∧
        ∃ i, i < j ∧ ∃ u, ts[i]? = some (some u) ∧ hash u = hash t := by
  show j + 1 ∈ (duplicados hash ts).map (·.2) ↔ _
  rw [duplicados, mem_duplicadosDesde]
  constructor
  · rintro ⟨d, t, hget, hq, hc⟩
    obtain rfl : d = j := by omega
    rcases hc with hv | ⟨e, he, u, hgu, hu⟩
    · simp [buscarHash] at hv
    · exact ⟨t, hget, e, he, u, hgu, hu⟩
  · rintro ⟨t, hget, i, hij, u, hgu, hu⟩
    exact ⟨j, t, hget, by omega, Or.inr ⟨i, hij, u, hgu, hu⟩⟩

theorem mem_seccionesTexto {ts : List (Option String)} {p : Nat × String} :
    p ∈ seccionesTexto ts ↔
      ∃ i t, ts[i]? = some (some t) ∧ 100 < (pyStrip t).length ∧ p = (i + 1, pyStrip t) := by
  rw [seccionesTexto, List.mem_filterMap]
  constructor
  · rintro ⟨⟨j, o⟩, hmem, hf⟩
    rw [List.mk_mem_enum_iff_getElem?] at hmem
    cases o with
    | none => simp at hf
    | some t =>
      simp only at hf
      split_ifs at hf with hlen
      · exact ⟨j, t, hmem, hlen, by simpa using hf.symm⟩
  · rintro ⟨i, t, hget, hlen, rfl⟩
    refine ⟨(i, some t), List.mk_mem_enum_iff_getElem?.2 hget, ?_⟩
    simp only
    rw [if_pos hlen]

/-- C5 counterexample: in a document of three pages with byte-identical
extracted text, pages 2 and 3 are two pages with identical text, the later
(3) is flagged, but the earlier of the pair (2) is itself flagged as well
(as a duplicate of page 1) — refuting "the earlier never is", which only
holds for the first occurrence of a content. The digest stands in for
`hashlib.md5`, which is injective on these inputs. -/
theorem duplicado_anterior_tambien_marcado :
    ([some "x", some "x", some "x"] : List (Option String))[1]? = some (some "x") ∧
    ([some "x", some "x", some "x"] : List (Option String))[2]? = some (some "x") ∧
    (duplicadosResultado (fun s => s) [some "x", some "x", some "x"]).afectados = [2, 3] ∧
    2 ∈ (duplicadosResultado (fun s => s) [some "x", some "x", some "x"]).afectados := by
  refine ⟨rfl, rfl, by decide, by decide⟩

/-- C5 (amended): for any digest function and document: a page is flagged
exactly when some earlier extracted page has an equal digest; a page none
of whose predecessors shares its digest — in particular the first
occurrence of any content — is never flagged; estado is `APROBADO` exactly
when there are no duplicates and `RECHAZADO` otherwise; the affected pages
are exactly the flagged later occurrences; and of two pages with
byte-identical extracted text the later is always flagged, while the
earlier is flagged only if it also repeats an earlier page's digest. -/
theorem folios_duplicados_caracterizacion (hash : String → String)
    (ts : List (Option String)) :
    (∀ j : Nat, j + 1 ∈ (duplicadosResultado hash ts).afectados ↔
      ∃ t, ts[j]? = some (some t) ∧
        ∃ i, i < j ∧ ∃ u, ts[i]? = some (some u) ∧ hash u = hash t) ∧
    (∀ j t, ts[j]? = some (some t) →
      (∀ i, i < j → ∀ u, ts[i]? = some (some u) → hash u ≠ hash t) →
      j + 1 ∉ (duplicadosResultado hash ts).afectados) ∧
    ((duplicadosResultado hash ts).estado = "APROBADO" ↔ duplicados hash ts = []) ∧
    ((duplicadosResultado hash ts).estado = "RECHAZADO" ↔ duplicados hash ts ≠ []) ∧
    (∀ i j t, i < j → ts[i]? = some (some t) → ts[j]? = some (some t) →
      j + 1 ∈ (duplicadosResultado hash ts).afectados) := by
  have hE : (duplicadosResultado hash ts).estado = duplicadosEstado hash ts := rfl
  refine ⟨fun j => mem_afectados_duplicados hash ts j, ?_, ?_, ?_, ?_⟩
  · intro j t hget hno hmem
    obtain ⟨t', hget', i, hij, u, hgu, hu⟩ := (mem_afectados_duplicados hash ts j).1 hmem
    obtain rfl : t = t' := by rw [hget] at hget'; simpa using hget'
    exact hno i hij u hgu hu
  · rw [hE, duplicadosEstado]
    split_ifs with h0
    · simp [List.length_eq_zero.1 h0]
    · constructor
      · intro hcon; exact absurd hcon (by decide)
      · intro hnil; rw [hnil] at h0; simp at h0
  · rw [hE, duplicadosEstado]
    split_ifs with h0
    · rw [List.length_eq_zero.1 h0]
      constructor
      · intro hcon; exact absurd hcon (by decide)
      · intro hne; exact absurd rfl hne
    · have hne : duplicados hash ts ≠ [] := by
        intro hnil; rw [hnil] at h0; simp at h0
      simp [hne]
  · intro i j t hij hgi hgj
    exact (mem_afectados_duplicados hash ts j).2 ⟨t, hgj, i, hij, t, hgi, rfl⟩

theorem folios_duplicados_caracterizacion_testigo :
    (∀ j : Nat, j + 1 ∈ (duplicadosResultado (fun s => s) [some "a", some "b", some "a"]).afectados ↔
      ∃ t, ([some "a", some "b", some "a"] : List (Option String))[j]? = some (some t) ∧
        ∃ i, i < j ∧ ∃ u, ([some "a", some "b", some "a"] : List (Option String))[i]? =
          some (some u) ∧ u = t) ∧
    (∀ j t, ([some "a", some "b", some "a"] : List (Option String))[j]? = some (some t) →
      (∀ i, i < j → ∀ u, ([some "a", some "b", some "a"] : List (Option String))[i]? =
        some (some u) → u ≠ t) →
      j + 1 ∉ (duplicadosResultado (fun s => s) [some "a", some "b", some "a"]).afectados) ∧
    ((duplicadosResultado (fun s => s) [some "a", some "b", some "a"]).estado = "APROBADO" ↔
      duplicados (fun s => s) [some "a", some "b", some "a"] = []) ∧
    ((duplicadosResultado (fun s => s) [some "a", some "b", some "a"]).estado = "RECHAZADO" ↔
      duplicados (fun s => s) [some "a", some "b", some "a"] ≠ []) ∧
    (∀ i j t, i < j →
      ([some "a", some "b", some "a"] : List (Option String))[i]? = some (some t) →
      ([some "a", some "b", some "a"] : List (Option String))[j]? = some (some t) →
      j + 1 ∈ (duplicadosResultado (fun s => s) [some "a", some "b", some "a"]).afectados) :=
  folios_duplicados_caracterizacion (fun s => s) [some "a", some "b", some "a"]

/-- The pipeline succeeds on any document with at least one page, producing
one result per modelled check. -/
theorem ejecutarVerificaciones_ok (hash : String → String) (ts : List (Option String))
    (h : ts ≠ []) :
    ejecutarVerificaciones hash ts =
      .ok [blancoResultado ts, foliacionResultado ts, duplicadosResultado hash ts,
           ilegibilidadResultado ts, plagioResultado ts] := by
  have hl : ts.length ≠ 0 := by simpa using h
  simp [ejecutarVerificaciones, blancoResult, foliacionResult, duplicadosResult,
        ilegibilidadResult, hl]
  rfl

/-- C4 counterexample: the check bodies run with no surrounding `try/except`,
so the first check-body exception aborts the rest of the run: on a
zero-page document the blank check's unguarded compliance division raises,
and the pipeline yields no report at all instead of a complete one. -/
theorem tuberia_abortada_por_primera_verificacion :
    blancoResult [] = .error () ∧
    ejecutarVerificaciones (fun s => s) [] = .error () :=
  ⟨rfl, rfl⟩

/-- C4 (amended): fault isolation holds at page granularity (extraction
errors are каught inside each check's loop), and the only modelled
check-body exception is the unguarded compliance division on a zero-page
document; for a document with at least one page every check runs and the
pipeline produces the complete list of five check results. -/
theorem verificaciones_completas_con_paginas (hash : String → String)
    (ts : List (Option String)) (h : ts ≠ []) :
    ∃ rs, ejecutarVerificaciones hash ts = .ok rs ∧ rs.length = 5 :=
  ⟨_, ejecutarVerificaciones_ok hash ts h, rfl⟩

theorem verificaciones_completas_con_paginas_testigo :
    ∃ rs, ejecutarVerificaciones (fun s => s) [some "x"] = .ok rs ∧ rs.length = 5 :=
  verificaciones_completas_con_paginas (fun s => s) [some "x"] (by decide)

/-- C9 counterexample: the blank-page check does not treat an
extraction-failed page like an empty-text page: a one-page document whose
page fails extraction is `APROBADO` with nothing flagged, while a one-page
document with empty extracted text is flagged blank and `OBSERVADO`. -/
theorem pagina_fallida_no_tratada_como_vacia :
    hojasBlanco [none] = [] ∧ blancoEstado [none] = "APROBADO" ∧
    hojasBlanco [some ""] = [1] ∧ blancoEstado [some ""] = "OBSERVADO" := by
  refine ⟨by decide, by decide, by decide, by decide⟩

/-- C9 (amended): a page-level extraction failure is caught inside every
check and never aborts the run: the legibility check flags the failed page
with stored percentage 0 and the error note, while the blank, pagination,
duplicate and similarity checks skip the failed page (it is flagged by
none of them); the pipeline still produces its complete report. -/
theorem fallos_extraccion_por_pagina (hash : String → String)
    (ts : List (Option String)) (h : ts ≠ []) :
    (∀ i, ts[i]? = some none →
      ((⟨i + 1, 0, true⟩ : FolioIlegible) ∈ foliosIlegibles ts ∧
       i + 1 ∈ (ilegibilidadResultado ts).afectados ∧
       i + 1 ∉ (blancoResultado ts).afectados ∧
       i + 1 ∉ (foliacionResultado ts).afectados ∧
       i + 1 ∉ (duplicadosResultado hash ts).afectados ∧
       (∀ s : String, (i + 1, s) ∉ seccionesTexto ts))) ∧
    ∃ rs, ejecutarVerificaciones hash ts = .ok rs ∧ rs.length = 5 := by
  refine ⟨?_, _, ejecutarVerificaciones_ok hash ts h, rfl⟩
  intro i hget
  refine ⟨pagina_fallida_en_ilegibles hget, ?_, ?_, ?_, ?_, ?_⟩
  · rw [mem_afectados_ilegibilidad]; exact Or.inl hget
  · intro hmem
    obtain ⟨t, hget', -⟩ := mem_hojasBlanco.1 hmem
    rw [hget] at hget'; simp at hget'
  · intro hmem
    obtain ⟨t, hget', -⟩ := mem_foliosIncorrectos.1 hmem
    rw [hget] at hget'; simp at hget'
  · intro hmem
    obtain ⟨t, hget', -⟩ := (mem_afectados_duplicados hash ts i).1 hmem
    rw [hget] at hget'; simp at hget'
  · intro s hmem
    obtain ⟨j, t, hget', -, hp⟩ := mem_seccionesTexto.1 hmem
    have hj : i + 1 = j + 1 := congrArg Prod.fst hp
    obtain rfl : j = i := by omega
    rw [hget] at hget'; simp at hget'

theorem fallos_extraccion_por_pagina_testigo :
    (∀ i, ([none, some "x"] : List (Option String))[i]? = some none →
      ((⟨i + 1, 0, true⟩ : FolioIlegible) ∈ foliosIlegibles [none, some "x"] ∧
       i + 1 ∈ (ilegibilidadResultado [none, some "x"]).afectados ∧
       i + 1 ∉ (blancoResultado [none, some "x"]).afectados ∧
       i + 1 ∉ (foliacionResultado [none, some "x"]).afectados ∧
       i + 1 ∉ (duplicadosResultado (fun s => s) [none, some "x"]).afectados ∧
       (∀ s : String, (i + 1, s) ∉ seccionesTexto [none, some "x"]))) ∧
    ∃ rs, ejecutarVerificaciones (fun s => s) [none, some "x"] = .ok rs ∧ rs.length = 5 :=
  fallos_extraccion_por_pagina (fun s => s) [none, some "x"] (by decide)

/-! ## Self-comparison: `SequenceMatcher(None, t, t).ratio() = 1`

For a self-comparison the main dynamic-program loop only ever stores a best
match that lies on the diagonal (off-diagonal run values never strictly
exceed the running best, which tracks the maximal diagonal run seen so
far), and the extension while-loops then widen any in-range diagonal match
to the full sequence. -/

theorem mem_posicionesDe {c : Char} {b : List Char} {j : Nat} :
    j ∈ posicionesDe c b ↔ j < b.length ∧ cAt b j = c := by
  simp [posicionesDe, List.mem_filter, List.mem_range]

/-- The in-window filter of a self-comparison row keeps every position. -/
theorem filtro_ventana_posiciones (c : Char) (a : List Char) :
    (posicionesDe c a).filter (fun j => decide (0 ≤ j) && decide (j < a.length)) =
      posicionesDe c a := by
  rw [List.filter_eq_self]
  intro j hj
  have := mem_posicionesDe.1 hj
  simp [this.1]

/-- Positions of `a[i]`'s character split around the diagonal position `i`. -/
theorem posicionesDe_split (c : Char) (a : List Char) (i : Nat) (hi : i < a.length)
    (hc : cAt a i = c) :
    ∃ L R, posicionesDe c a = L ++ i :: R ∧
      (∀ j ∈ L, j < i ∧ cAt a j = c) ∧ (∀ j ∈ R, i < j ∧ cAt a j = c) := by
  obtain ⟨k, hk⟩ : ∃ k, a.length = i + 1 + k := ⟨a.length - i - 1, by omega⟩
  have hsplit : List.range a.length = List.range' 0 i ++ i :: List.range' (i + 1) (a.length - i - 1) := by
    rw [hk, show i + 1 + k - i - 1 = k from by omega, List.range_eq_range',
        show i + 1 + k = (1 + k) + i from by omega, ← List.range'_append 0 i (1 + k) 1]
    congr 1
    rw [show 0 + 1 * i = i from by omega, show 1 + k = k + 1 from by omega, List.range'_succ]
  refine ⟨(List.range' 0 i).filter (fun j => decide (cAt a j = c)),
          (List.range' (i + 1) (a.length - i - 1)).filter (fun j => decide (cAt a j = c)),
          ?_, ?_, ?_⟩
  · rw [posicionesDe, hsplit, List.filter_append, List.filter_cons]
    simp [hc]
  · intro j hj
    obtain ⟨hmem, hdec⟩ := List.mem_filter.1 hj
    have := List.mem_range'.1 hmem
    exact ⟨by omega, by simpa using hdec⟩
  · intro j hj
    obtain ⟨hmem, hdec⟩ := List.mem_filter.1 hj
    have := List.mem_range'.1 hmem
    exact ⟨by omega, by simpa using hdec⟩

theorem carreraDiag_le (a : List Char) : ∀ i, carreraDiag a i ≤ i + 1 := by
  intro i
  induction i with
  | zero => rw [carreraDiag]; split_ifs <;> omega
  | succ n ih => rw [carreraDiag]; split_ifs <;> omega

theorem carreraDiag_le_maxCarrera (a : List Char) {r i : Nat} (h : r < i) :
    carreraDiag a r ≤ maxCarrera a i := by
  induction i with
  | zero => omega
  | succ n ih =>
    rw [maxCarrera]
    rcases Nat.lt_succ_iff_lt_or_eq.1 h with h' | rfl
    · exact le_max_of_le_left (ih h')
    · exact le_max_right _ _

theorem carreraDiag_de_noPopular {a : List Char} {j : Nat}
    (hnp : esPopular a (cAt a j) = false) :
    carreraDiag a j = (if j = 0 then 0 else carreraDiag a (j - 1)) + 1 := by
  cases j with
  | zero => rw [carreraDiag, hnp]; rfl
  | succ j' => rw [carreraDiag, hnp]; rfl

theorem carreraDiag_de_popular {a : List Char} {j : Nat}
    (hp : esPopular a (cAt a j) = true) : carreraDiag a j = 0 := by
  cases j with
  | zero => rw [carreraDiag, hp]; rfl
  | succ j' => rw [carreraDiag, hp]; rfl

/-- A row segment none of whose run values strictly beats the current best
leaves the best untouched and only adds its own run values to the new row. -/
theorem filaSinCambioMejor (f : Nat → Nat) (i : Nat) :
    ∀ (part : List Nat) (g0 : Nat → Nat) (m : Mejor),
      (∀ j ∈ part, (if j = 0 then 0 else f (j - 1)) + 1 ≤ m.bestsize) →
      ∃ g1, part.foldl (cuerpoFila f i) (g0, m) = (g1, m) ∧
        ∀ x, g1 x = g0 x ∨ ∃ j, j ∈ part ∧ x = j ∧
          g1 x = (if j = 0 then 0 else f (j - 1)) + 1 := by
  intro part
  induction part with
  | nil => intro g0 m _; exact ⟨g0, rfl, fun x => Or.inl rfl⟩
  | cons j part' ih =>
    intro g0 m hm
    rw [List.foldl_cons]
    have hk := hm j (by simp)
    have hnlt : ¬ (m.bestsize < (if j = 0 then 0 else f (j - 1)) + 1) := by omega
    have hstep : cuerpoFila f i (g0, m) j =
        ((fun x => if x = j then (if j = 0 then 0 else f (j - 1)) + 1 else g0 x), m) := by
      simp only [cuerpoFila]
      rw [if_neg hnlt]
    rw [hstep]
    obtain ⟨g1, hfold, hdesc⟩ := ih _ m (fun j' hj' => hm j' (by simp [hj']))
    refine ⟨g1, hfold, fun x => ?_⟩
    rcases hdesc x with h | ⟨j', hj', hxj, hval⟩
    · by_cases hxj : x = j
      · rw [h, if_pos hxj]
        exact Or.inr ⟨j, by simp, hxj, rfl⟩
      · rw [h, if_neg hxj]
        exact Or.inl rfl
    · exact Or.inr ⟨j', by simp [hj'], hxj, hval⟩

/-- One self-comparison row: row `i`'s values stay bounded by the diagonal
runs, the diagonal entry is exact, and the best match stays diagonal and
in range, its size still dominating every diagonal run seen so far. -/
theorem flmFila_self (a : List Char) (i : Nat) (hi : i < a.length)
    (hnp : esPopular a (cAt a i) = false)
    (f : Nat → Nat) (bi bs : Nat)
    (hf1 : ∀ j, f j ≤ carreraDiag a j)
    (hf2 : ∀ j, f j ≤ (if i = 0 then 0 else carreraDiag a (i - 1)))
    (hf3 : i ≠ 0 → f (i - 1) = carreraDiag a (i - 1))
    (hbs : maxCarrera a i ≤ bs)
    (hrange : bi + bs ≤ a.length) :
    ∃ g bi' bs',
      flmFila f i ((b2j a (cAt a i)).filter
        (fun j => decide (0 ≤ j) && decide (j < a.length))) ⟨bi, bi, bs⟩ =
        (g, ⟨bi', bi', bs'⟩) ∧
      (∀ j, g j ≤ carreraDiag a j) ∧
      (∀ j, g j ≤ carreraDiag a i) ∧
      g i = carreraDiag a i ∧
      maxCarrera a (i + 1) ≤ bs' ∧
      bi' + bs' ≤ a.length := by
  have hcDi : carreraDiag a i = (if i = 0 then 0 else carreraDiag a (i - 1)) + 1 :=
    carreraDiag_de_noPopular hnp
  have hkv_cD : ∀ j, cAt a j = cAt a i →
      (if j = 0 then 0 else f (j - 1)) + 1 ≤ carreraDiag a j := by
    intro j hcj
    have hnpj : esPopular a (cAt a j) = false := by rw [hcj]; exact hnp
    rw [carreraDiag_de_noPopular hnpj]
    have := hf1 (j - 1)
    split_ifs <;> omega
  have hkv_cDi : ∀ j, (if j = 0 then 0 else f (j - 1)) + 1 ≤ carreraDiag a i := by
    intro j
    rw [hcDi]
    have := hf2 (j - 1)
    split_ifs at this ⊢ <;> omega
  have hkvi : (if i = 0 then 0 else f (i - 1)) + 1 = carreraDiag a i := by
    rw [hcDi]
    by_cases h0 : i = 0
    · simp [h0]
    · rw [if_neg h0, if_neg h0, hf3 h0]
  obtain ⟨L, R, hsplit, hL, hR⟩ := posicionesDe_split (cAt a i) a i hi rfl
  have hjs : (b2j a (cAt a i)).filter
      (fun j => decide (0 ≤ j) && decide (j < a.length)) = L ++ i :: R := by
    rw [b2j, if_neg (by simp [hnp]), filtro_ventana_posiciones, hsplit]
  rw [flmFila, hjs, List.foldl_append, List.foldl_cons]
  obtain ⟨g1, hfold1, hdesc1⟩ := filaSinCambioMejor f i L (fun _ => 0) ⟨bi, bi, bs⟩
    (by
      intro j hj
      obtain ⟨hji, hcj⟩ := hL j hj
      show (if j = 0 then 0 else f (j - 1)) + 1 ≤ bs
      exact le_trans (le_trans (hkv_cD j hcj) (carreraDiag_le_maxCarrera a hji)) hbs)
  rw [hfold1]
  have hstep : cuerpoFila f i (g1, (⟨bi, bi, bs⟩ : Mejor)) i =
      ((fun x => if x = i then carreraDiag a i else g1 x),
        if bs < carreraDiag a i then
          ⟨i + 1 - carreraDiag a i, i + 1 - carreraDiag a i, carreraDiag a i⟩
        else ⟨bi, bi, bs⟩) := by
    simp only [cuerpoFila, hkvi]
  rw [hstep]
  by_cases hup : bs < carreraDiag a i
  · rw [if_pos hup]
    obtain ⟨g3, hfold3, hdesc3⟩ := filaSinCambioMejor f i R
      (fun x => if x = i then carreraDiag a i else g1 x)
      ⟨i + 1 - carreraDiag a i, i + 1 - carreraDiag a i, carreraDiag a i⟩
      (by
        intro j hj
        show (if j = 0 then 0 else f (j - 1)) + 1 ≤ carreraDiag a i
        exact hkv_cDi j)
    rw [hfold3]
    have hgi : g3 i = carreraDiag a i := by
      rcases hdesc3 i with h | ⟨j, hjR, hij, -⟩
      · rw [h, if_pos rfl]
      · exact absurd hij (by have := (hR j hjR).1; omega)
    refine ⟨g3, i + 1 - carreraDiag a i, carreraDiag a i, rfl, ?_, ?_, hgi, ?_, ?_⟩
    · intro x
      rcases hdesc3 x with h | ⟨j, hjR, hxj, hval⟩
      · rw [h]
        by_cases hxi : x = i
        · rw [if_pos hxi, hxi]
        · rw [if_neg hxi]
          rcases hdesc1 x with h1 | ⟨j, hjL, hxj, hval⟩
          · rw [h1]; omega
          · rw [hval, hxj]; exact hkv_cD j (hL j hjL).2
      · rw [hval, hxj]; exact hkv_cD j (hR j hjR).2
    · intro x
      rcases hdesc3 x with h | ⟨j, hjR, hxj, hval⟩
      · rw [h]
        by_cases hxi : x = i
        · rw [if_pos hxi]
        · rw [if_neg hxi]
          rcases hdesc1 x with h1 | ⟨j, hjL, hxj, hval⟩
          · rw [h1]; omega
          · rw [hval]; exact hkv_cDi j
      · rw [hval]; exact hkv_cDi j
    · rw [maxCarrera]; omega
    · have := carreraDiag_le a i; omega
  · rw [if_neg hup]
    obtain ⟨g3, hfold3, hdesc3⟩ := filaSinCambioMejor f i R
      (fun x => if x = i then carreraDiag a i else g1 x) ⟨bi, bi, bs⟩
      (by
        intro j hj
        show (if j = 0 then 0 else f (j - 1)) + 1 ≤ bs
        have := hkv_cDi j
        omega)
    rw [hfold3]
    have hgi : g3 i = carreraDiag a i := by
      rcases hdesc3 i with h | ⟨j, hjR, hij, -⟩
      · rw [h, if_pos rfl]
      · exact absurd hij (by have := (hR j hjR).1; omega)
    refine ⟨g3, bi, bs, rfl, ?_, ?_, hgi, ?_, hrange⟩
    · intro x
      rcases hdesc3 x with h | ⟨j, hjR, hxj, hval⟩
      · rw [h]
        by_cases hxi : x = i
        · rw [if_pos hxi, hxi]
        · rw [if_neg hxi]
          rcases hdesc1 x with h1 | ⟨j, hjL, hxj, hval⟩
          · rw [h1]; omega
          · rw [hval, hxj]; exact hkv_cD j (hL j hjL).2
      · rw [hval, hxj]; exact hkv_cD j (hR j hjR).2
    · intro x
      rcases hdesc3 x with h | ⟨j, hjR, hxj, hval⟩
      · rw [h]
        by_cases hxi : x = i
        · rw [if_pos hxi]
        · rw [if_neg hxi]
          rcases hdesc1 x with h1 | ⟨j, hjL, hxj, hval⟩
          · rw [h1]; omega
          · rw [hval]; exact hkv_cDi j
      · rw [hval]; exact hkv_cDi j
    · rw [maxCarrera]; omega

/-- The main `find_longest_match` loop of a self-comparison keeps its best
match diagonal and in range. -/
theorem flmBucle_self_aux (a : List Char) :
    ∀ i, i ≤ a.length →
      ∃ f bi bs,
        (List.range' 0 i).foldl (pasoFila a (b2j a) 0 a.length) ((fun _ => 0), ⟨0, 0, 0⟩) =
          (f, ⟨bi, bi, bs⟩) ∧
        (∀ j, f j ≤ carreraDiag a j) ∧
        (∀ j, f j ≤ (if i = 0 then 0 else carreraDiag a (i - 1))) ∧
        (i ≠ 0 → f (i - 1) = carreraDiag a (i - 1)) ∧
        maxCarrera a i ≤ bs ∧ bi + bs ≤ a.length := by
  intro i
  induction i with
  | zero =>
    intro _
    refine ⟨(fun _ => 0), 0, 0, rfl, fun j => Nat.zero_le _, fun j => by simp, ?_, ?_, ?_⟩
    · intro h; exact absurd rfl h
    · rw [maxCarrera]
    · omega
  | succ i ih =>
    intro hle
    have hi : i < a.length := by omega
    obtain ⟨f, bi, bs, hfold, hf1, hf2, hf3, hbs, hrange⟩ := ih (by omega)
    have hconcat : List.range' 0 (i + 1) = List.range' 0 i ++ [i] := by
      rw [List.range'_1_concat]
      simp
    rw [hconcat, List.foldl_append, hfold, List.foldl_cons, List.foldl_nil]
    rcases hpop : esPopular a (cAt a i) with _ | _
    · -- the character survives autojunk: full row analysis
      obtain ⟨g, bi', bs', hrow, hg1, hg2, hg3, hbs', hrange'⟩ :=
        flmFila_self a i hi hpop f bi bs hf1 hf2 hf3 hbs hrange
      refine ⟨g, bi', bs', ?_, hg1, ?_, ?_, hbs', hrange'⟩
      · rw [show pasoFila a (b2j a) 0 a.length (f, ⟨bi, bi, bs⟩) i =
              flmFila f i ((b2j a (cAt a i)).filter
                (fun j => decide (0 ≤ j) && decide (j < a.length))) ⟨bi, bi, bs⟩ from rfl]
        exact hrow
      · intro j
        rw [if_neg (Nat.succ_ne_zero i), Nat.add_sub_cancel]
        exact hg2 j
      · intro _
        rw [Nat.add_sub_cancel]
        exact hg3
    · -- popular character: the row is empty and resets `j2len`
      have hjs : (b2j a (cAt a i)).filter
          (fun j => decide (0 ≤ j) && decide (j < a.length)) = [] := by
        rw [b2j, if_pos (by simp [hpop])]
        rfl
      have hrow : pasoFila a (b2j a) 0 a.length (f, ⟨bi, bi, bs⟩) i =
          ((fun _ => 0), ⟨bi, bi, bs⟩) := by
        rw [show pasoFila a (b2j a) 0 a.length (f, ⟨bi, bi, bs⟩) i =
              flmFila f i ((b2j a (cAt a i)).filter
                (fun j => decide (0 ≤ j) && decide (j < a.length))) ⟨bi, bi, bs⟩ from rfl,
            hjs, flmFila]
        rfl
      have hcD0 : carreraDiag a i = 0 := carreraDiag_de_popular hpop
      refine ⟨(fun _ => 0), bi, bs, hrow, fun j => Nat.zero_le _, ?_, ?_, ?_, hrange⟩
      · intro j
        rw [if_neg (Nat.succ_ne_zero i)]
        exact Nat.zero_le _
      · intro _
        rw [Nat.add_sub_cancel, hcD0]
      · rw [maxCarrera, hcD0]
        omega

/-- The left extension loop of a self-comparison widens a diagonal match to
the left edge. -/
theorem extiendeIzq_diag (a : List Char) :
    ∀ bi bs, extiendeIzq a a 0 0 bi bi bi bs = ⟨0, 0, bs + bi⟩ := by
  intro bi
  induction bi with
  | zero => intro bs; rw [extiendeIzq, Nat.add_zero]
  | succ n ih =>
    intro bs
    rw [extiendeIzq, if_pos ⟨Nat.succ_pos n, Nat.succ_pos n, rfl⟩]
    rw [Nat.add_sub_cancel]
    rw [ih (bs + 1)]
    have : bs + 1 + n = bs + (n + 1) := by omega
    rw [this]

/-- The right extension loop of a self-comparison widens a diagonal match at
the left edge to the whole sequence. -/
theorem extiendeDer_diag (a : List Char) :
    ∀ k bs, bs + k = a.length → extiendeDer a a a.length a.length k 0 0 bs = ⟨0, 0, a.length⟩ := by
  intro k
  induction k with
  | zero =>
    intro bs h
    rw [extiendeDer]
    rw [show bs = a.length from by omega]
  | succ n ih =>
    intro bs h
    rw [extiendeDer, if_pos ⟨by omega, by omega, rfl⟩]
    exact ih (bs + 1) (by omega)

/-- `find_longest_match` over the whole window of a self-comparison returns
the full diagonal. -/
theorem encuentraMejor_self (a : List Char) :
    encuentraMejor a a (b2j a) 0 a.length 0 a.length = ⟨0, 0, a.length⟩ := by
  obtain ⟨f, bi, bs, hfold, -, -, -, -, hrange⟩ := flmBucle_self_aux a a.length le_rfl
  rw [encuentraMejor]
  have hb : flmBucle a (b2j a) 0 a.length 0 a.length = (f, ⟨bi, bi, bs⟩) := by
    rw [flmBucle, Nat.sub_zero]
    exact hfold
  rw [hb]
  simp only
  rw [extiendeIzq_diag a bi bs]
  simp only
  rw [Nat.zero_add]
  exact extiendeDer_diag a (a.length - (bs + bi)) (bs + bi) (by omega)

/-- Total matched size of a self-comparison: everything matches. -/
theorem totalCoincidencias_self (a : List Char) (h : a.length ≠ 0) (fuel : Nat) :
    totalCoincidencias a a (b2j a) (fuel + 1) 0 a.length 0 a.length = a.length := by
  rw [totalCoincidencias, encuentraMejor_self a]
  simp only
  rw [if_neg h, if_neg (by omega), if_neg (by omega)]
  omega

/-- `_calcular_similitud(t, t) = 1` for every text `t`: the autojunk pruning
may empty the index, but the extension loops always recover the full
diagonal match of a self-comparison. -/
theorem similitud_consigo (t : String) : calcularSimilitud t t = 1 := by
  rw [calcularSimilitud]
  by_cases h : t.data.length = 0
  · rw [if_pos (by omega)]
  · rw [if_neg (by omega)]
    rw [show t.data.length + t.data.length + 1 = (t.data.length + t.data.length) + 1 from rfl,
        totalCoincidencias_self t.data h]
    have hq : ((t.length : ℚ)) ≠ 0 := by
      have h2 : t.length ≠ 0 := by
        rw [show t.length = t.data.length from rfl]
        exact h
      exact_mod_cast h2
    field_simp
    ring

/-- C3 counterexample: the pairwise similarity function is not symmetric:
`_calcular_similitud("aba", "babba")` is 0.75 while
`_calcular_similitud("babba", "aba")` is 0.5 (the greedy longest-match
tie-breaking depends on the argument order). -/
theorem similitud_no_simetrica :
    calcularSimilitud "aba" "babba" = 3 / 4 ∧
    calcularSimilitud "babba" "aba" = 1 / 2 ∧
    calcularSimilitud "aba" "babba" ≠ calcularSimilitud "babba" "aba" := by
  have h1 : totalCoincidencias "aba".data "babba".data (b2j "babba".data)
      ("aba".data.length + "babba".data.length + 1) 0 "aba".data.length 0
      "babba".data.length = 3 := by decide
  have h2 : totalCoincidencias "babba".data "aba".data (b2j "aba".data)
      ("babba".data.length + "aba".data.length + 1) 0 "babba".data.length 0
      "aba".data.length = 2 := by decide
  have l1 : ("aba" : String).data.length = 3 := rfl
  have l2 : ("babba" : String).data.length = 5 := rfl
  have e1 : calcularSimilitud "aba" "babba" = 3 / 4 := by
    rw [calcularSimilitud, h1, l1, l2]
    norm_num
  have e2 : calcularSimilitud "babba" "aba" = 1 / 2 := by
    rw [calcularSimilitud, h2, l1, l2]
    norm_num
  refine ⟨e1, e2, ?_⟩
  rw [e1, e2]
  norm_num

/-- C3 (amended): the self-comparison half of the claim holds for every
text, eligible page text or not: `_calcular_similitud(t, t) = 1.0` exactly.
(On a self-comparison the autojunk pruning may empty the position index,
but the match-extension loops always recover the full diagonal match.)
The symmetry half is refuted by the counterexample. -/
theorem similitud_reflexiva (t : String) : calcularSimilitud t t = 1 :=
  similitud_consigo t

/-- C2 counterexample: four identical 101-character pages are all eligible
sections of the similarity check with pairwise similarity 1, giving 6 cases
among 4 sections, so that check's compliance ratio is
`100 − 6/4·100 = −50`, outside [0, 100]. -/
theorem plagio_cumplimiento_negativo :
    (plagioResultado
      [some textoLargo, some textoLargo, some textoLargo, some textoLargo]).cumplimiento
      = -50 ∧ ((-50 : ℚ) < 0) := by
  have hsec : seccionesTexto [some textoLargo, some textoLargo, some textoLargo, some textoLargo] =
      [(1, textoLargo), (2, textoLargo), (3, textoLargo), (4, textoLargo)] := by decide
  have hsim : calcularSimilitud textoLargo textoLargo = 1 := similitud_consigo _
  have hcaso : ∀ p q : Nat, casoDePar ((p, textoLargo), (q, textoLargo)) = some (p, q) := by
    intro p q
    rw [show casoDePar ((p, textoLargo), (q, textoLargo)) =
          if (17 : ℚ) / 20 ≤ calcularSimilitud textoLargo textoLargo then some (p, q)
          else none from rfl,
        hsim, if_pos (by norm_num)]
  have hcasos : casosPlagio [some textoLargo, some textoLargo, some textoLargo, some textoLargo] =
      [(1, 2), (1, 3), (1, 4), (2, 3), (2, 4), (3, 4)] := by
    rw [casosPlagio, hsec]
    simp [paresDe, hcaso]
  constructor
  · show (100 : ℚ) -
      ((casosPlagio [some textoLargo, some textoLargo, some textoLargo, some textoLargo]).length : ℚ) /
        (max (seccionesTexto [some textoLargo, some textoLargo, some textoLargo, some textoLargo]).length 1 : ℚ) * 100
      = -50
    rw [hcasos, hsec]
    norm_num
  · norm_num

/-- C2 (amended): the compliance ratios of the blank, pagination, duplicate
and legibility checks always lie in [0, 100] for any document with at least
one page; the similarity check's compliance ratio is at most 100 but has no
lower bound of 0 (see the counterexample). -/
theorem cumplimientos_en_rango (hash : String → String) (ts : List (Option String))
    (h : ts ≠ []) :
    (0 ≤ (blancoResultado ts).cumplimiento ∧ (blancoResultado ts).cumplimiento ≤ 100) ∧
    (0 ≤ (foliacionResultado ts).cumplimiento ∧
      (foliacionResultado ts).cumplimiento ≤ 100) ∧
    (0 ≤ (duplicadosResultado hash ts).cumplimiento ∧
      (duplicadosResultado hash ts).cumplimiento ≤ 100) ∧
    (0 ≤ (ilegibilidadResultado ts).cumplimiento ∧
      (ilegibilidadResultado ts).cumplimiento ≤ 100) ∧
    (plagioResultado ts).cumplimiento ≤ 100 := by
  have hl : 0 < ts.length := List.length_pos.2 h
  refine ⟨cumplimiento_en_cero_cien (length_hojasBlanco_le ts) hl,
          cumplimiento_en_cero_cien (length_foliosIncorrectos_le ts) hl,
          cumplimiento_en_cero_cien (length_duplicados_le hash ts) hl,
          cumplimiento_en_cero_cien (length_foliosIlegibles_le ts) hl, ?_⟩
  show (100 : ℚ) -
      ((casosPlagio ts).length : ℚ) / (max (seccionesTexto ts).length 1 : ℚ) * 100 ≤ 100
  have h0 : (0 : ℚ) ≤
      ((casosPlagio ts).length : ℚ) / (max (seccionesTexto ts).length 1 : ℚ) * 100 := by
    positivity
  linarith

theorem cumplimientos_en_rango_testigo :
    (0 ≤ (blancoResultado [some "x"]).cumplimiento ∧
      (blancoResultado [some "x"]).cumplimiento ≤ 100) ∧
    (0 ≤ (foliacionResultado [some "x"]).cumplimiento ∧
      (foliacionResultado [some "x"]).cumplimiento ≤ 100) ∧
    (0 ≤ (duplicadosResultado (fun s => s) [some "x"]).cumplimiento ∧
      (duplicadosResultado (fun s => s) [some "x"]).cumplimiento ≤ 100) ∧
    (0 ≤ (ilegibilidadResultado [some "x"]).cumplimiento ∧
      (ilegibilidadResultado [some "x"]).cumplimiento ≤ 100) ∧
    (plagioResultado [some "x"]).cumplimiento ≤ 100 :=
  cumplimientos_en_rango (fun s => s) [some "x"] (by decide)
